import Mathlib

/-!
The React example of the speech-recognition streaming client.

A shallow embedding of `examples/react-example/src/App.js`: the `App` component, its
methods `setText`, `handleStart`, `handleStop`, `handlePunctuation`, and the callbacks it
hands to the streaming client (`connect`, `startStreaming`, `punctuateText`).

The streaming client is an imported library.  Every call the component makes on it, and
every `console.log`, is recorded in order in a trace; the callbacks the component passes
to it are ordinary functions on the component state, which the library runs by delivering
events.  `setState` is taken to have been applied by the time the next callback runs.
Texts, identifiers and error payloads are strings; a string is truthy when it is not
empty.
-/

namespace ReactExample

/-- The values of `action` that the connect callback distinguishes.  `SocketStatus` is
imported from the client library; the callback compares `action` with
`SocketStatus.CONNECTED` and `SocketStatus.TERMINATED` and sends everything else
(an error status, or any unrecognised value) to its last branch. -/
inductive SocketStatus where
  | CONNECTED
  | TERMINATED
  | ERROR
  | unrecognised (kind : String)
  deriving DecidableEq, Repr

/-- One argument of a `console.log` call. -/
inductive LogArg where
  | str (s : String)
  | action (a : SocketStatus)
  deriving DecidableEq, Repr

/-- A call made by the component on a collaborator: the console or the streaming
client held in `this.state.streaming`.  Callback arguments are not recorded; they are
the functions `connectCallback`, `transcriptCallback`, `streamingErrorCallback`,
`punctuateSuccess` and `punctuateFailure` below. -/
inductive Call where
  | consoleLog (args : List LogArg)
  | connect (url language : String) (sampleRate : Nat) (postProcessors : List String)
  | startStreaming
  | stopStreaming
  | punctuateText (text url : String)
  deriving DecidableEq, Repr

/-- The component: the two class fields (lines 7-8) and `this.state.text`. -/
structure App where
  streamingURL : String
  punctuateURL : String
  text : String
  deriving DecidableEq, Repr

/-- The part of the global scope that App.js reads.  Line 65 names the identifier
`punctuateURL` without `this.`; the module declares no such variable, so the name is
looked up in the global scope: `none` when no script has defined it. -/
structure GlobalScope where
  punctuateURL : Option String
  deriving DecidableEq, Repr

/-- How a method or callback ends: normally, by throwing the ReferenceError that
reading an unbound identifier raises, or by letting through an exception that a call
on the streaming client raised (App.js has no `try`). -/
inductive Completion where
  | normal
  | referenceError (identifier : String)
  | thrown (error : String)
  deriving DecidableEq, Repr

/-- The component together with the trace of calls made so far, oldest first. -/
structure Machine where
  app : App
  calls : List Call
  deriving DecidableEq, Repr

/-- The result of running a method or callback that may throw. -/
structure Outcome where
  m : Machine
  completion : Completion
  deriving DecidableEq, Repr

/-- Lines 10-15 with the class fields of lines 7-8: a freshly constructed component. -/
def constructor : App :=
  { streamingURL := "<Add URL HERE>"
    punctuateURL := "<Add Punctuate URL HERE>"
    text := "Click Start to start speaking.." }

/-- A fresh component with an empty trace. -/
def mount (app : App) : Machine := { app := app, calls := [] }

/-- Record a call on a collaborator. -/
def call (c : Call) (m : Machine) : Machine :=
  { m with calls := m.calls ++ [c] }

/-- Record `console.log(args)`. -/
def consoleLog (args : List LogArg) (m : Machine) : Machine :=
  call (Call.consoleLog args) m

/-- JavaScript truthiness of a string: `if (text)` passes unless `text` is empty. -/
def truthy (s : String) : Bool := decide (s ≠ "")

/-- Lines 21-23: `setText(text)` replaces `this.state.text`. -/
def setText (text : String) (m : Machine) : Machine :=
  { m with app := { m.app with text := text } }

/-- Lines 65-66: the success callback given to `punctuateText`. -/
def punctuateSuccess (_status text : String) (m : Machine) : Machine :=
  setText text m

/-- Lines 67-69: the failure callback given to `punctuateText`. -/
def punctuateFailure (status error : String) (m : Machine) : Machine :=
  consoleLog [LogArg.str "Failed to punctuate", LogArg.str status, LogArg.str error] m

/-- Lines 61-73: `handlePunctuation(text)`.  The arguments of `punctuateText` are
evaluated before the call is made, so an unbound `punctuateURL` throws before any
request leaves the component. -/
def handlePunctuation (scope : GlobalScope) (text : String) (m : Machine) : Outcome :=
  let m1 := consoleLog [LogArg.str ("Punctuating: " ++ text)] m
  if truthy text then
    match scope.punctuateURL with
    | none => { m := m1, completion := Completion.referenceError "punctuateURL" }
    | some url => { m := call (Call.punctuateText text url) m1, completion := Completion.normal }
  else
    { m := m1, completion := Completion.normal }

/-- Lines 38-41: the transcript callback given to `startStreaming`. -/
def transcriptCallback (transcript : String) (m : Machine) : Machine :=
  setText transcript (consoleLog [LogArg.str "Data", LogArg.str transcript] m)

/-- Lines 41-43: the error callback given to `startStreaming`. -/
def streamingErrorCallback (e : String) (m : Machine) : Machine :=
  consoleLog [LogArg.str "I got error", LogArg.str e] m

/-- Lines 33-51: the status callback given to `connect`. -/
def connectCallback (scope : GlobalScope) (action : SocketStatus) (id : String)
    (m : Machine) : Outcome :=
  let m1 := consoleLog
    [LogArg.str "Connected", LogArg.str id, LogArg.str "action:", LogArg.action action] m
  if action = SocketStatus.CONNECTED then
    let m2 := consoleLog [LogArg.str "Starting....."] m1
    let m3 := setText "Connected, Start Speaking.." m2
    { m := call Call.startStreaming m3, completion := Completion.normal }
  else if action = SocketStatus.TERMINATED then
    let m2 := consoleLog [LogArg.str "Punctuating: ", LogArg.str m1.app.text] m1
    handlePunctuation scope m2.app.text m2
  else
    { m := consoleLog
        [LogArg.str "Un expected action", LogArg.action action, LogArg.str id] m1
      completion := Completion.normal }

/-- Lines 25-54: `handleStart()`. -/
def handleStart (m : Machine) : Machine :=
  let m1 := setText "Connecting to server.." m
  call (Call.connect m1.app.streamingURL "hi" 16000 []) m1

/-- Lines 56-59: `handleStop()`.  The call `stopStreaming()` is the last statement and
runs library code, so the method ends the way that call ends; `stopStreaming` is that
ending, taken as given. -/
def handleStop (stopStreaming : Completion) (m : Machine) : Outcome :=
  { m := call Call.stopStreaming (consoleLog [LogArg.str ("Stopping: " ++ m.app.text)] m)
    completion := stopStreaming }

/-- What the streaming client can deliver to the callbacks the component gave it. -/
inductive Event where
  | status (action : SocketStatus) (id : String)
  | transcript (text : String)
  | streamingError (e : String)
  | punctuated (status text : String)
  | punctuationFailed (status error : String)
  deriving DecidableEq, Repr

/-- Run the callback an event is addressed to.  An exception thrown by the callback
goes to the library that called it; the component and the trace stay as they were at
the throw. -/
def deliver (scope : GlobalScope) (m : Machine) (ev : Event) : Machine :=
  match ev with
  | Event.status action id => (connectCallback scope action id m).m
  | Event.transcript text => transcriptCallback text m
  | Event.streamingError e => streamingErrorCallback e m
  | Event.punctuated status text => punctuateSuccess status text m
  | Event.punctuationFailed status error => punctuateFailure status error m

/-- Deliver a sequence of events in order. -/
def run (scope : GlobalScope) (m : Machine) (evs : List Event) : Machine :=
  evs.foldl (deliver scope) m

/-- One session: `handleStart()` on the component, then the events the client delivers. -/
def session (scope : GlobalScope) (m : Machine) (evs : List Event) : Machine :=
  run scope (handleStart m) evs

/-- The `punctuateText` requests of a trace, as (text, endpoint) pairs, oldest first. -/
def punctuateRequests (calls : List Call) : List (String × String) :=
  calls.filterMap fun c =>
    match c with
    | Call.punctuateText text url => some (text, url)
    | _ => none

/-- The `connect` requests of a trace, by endpoint, oldest first. -/
def connectRequests (calls : List Call) : List String :=
  calls.filterMap fun c =>
    match c with
    | Call.connect url _ _ _ => some url
    | _ => none

/-- The number of `stopStreaming` requests of a trace. -/
def stopRequests (calls : List Call) : Nat :=
  calls.count Call.stopStreaming

/-- Whether an event is a TERMINATED connection status. -/
def isTerminated (ev : Event) : Bool :=
  match ev with
  | Event.status SocketStatus.TERMINATED _ => true
  | _ => false

/-! ## Trace lemmas -/

@[simp] theorem punctuateRequests_append (xs ys : List Call) :
    punctuateRequests (xs ++ ys) = punctuateRequests xs ++ punctuateRequests ys := by
  simp [punctuateRequests, List.filterMap_append]

@[simp] theorem punctuateRequests_consoleLog (args : List LogArg) (m : Machine) :
    punctuateRequests (consoleLog args m).calls = punctuateRequests m.calls := by
  simp [consoleLog, call, punctuateRequests]

@[simp] theorem punctuateRequests_punctuateText (text url : String) (m : Machine) :
    punctuateRequests (call (Call.punctuateText text url) m).calls
      = punctuateRequests m.calls ++ [(text, url)] := by
  simp [call, punctuateRequests]

@[simp] theorem punctuateRequests_startStreaming (m : Machine) :
    punctuateRequests (call Call.startStreaming m).calls = punctuateRequests m.calls := by
  simp [call, punctuateRequests]

@[simp] theorem consoleLog_app (args : List LogArg) (m : Machine) :
    (consoleLog args m).app = m.app := rfl

@[simp] theorem call_app (c : Call) (m : Machine) : (call c m).app = m.app := rfl

@[simp] theorem setText_calls (text : String) (m : Machine) :
    (setText text m).calls = m.calls := rfl

@[simp] theorem setText_text (text : String) (m : Machine) :
    (setText text m).app.text = text := rfl

theorem truthy_iff (s : String) : truthy s = true ↔ s ≠ "" := by
  simp [truthy]

/-- The method `handlePunctuation` never changes the component. -/
theorem handlePunctuation_app (scope : GlobalScope) (text : String) (m : Machine) :
    (handlePunctuation scope text m).m.app = m.app := by
  unfold handlePunctuation
  cases scope.punctuateURL <;> cases truthy text <;> simp

/-- The requests `handlePunctuation` adds: one for a truthy text when the endpoint
identifier is bound, none otherwise. -/
theorem handlePunctuation_requests (scope : GlobalScope) (text : String) (m : Machine) :
    punctuateRequests (handlePunctuation scope text m).m.calls
      = punctuateRequests m.calls ++
          (match scope.punctuateURL with
           | some url => if truthy text then [(text, url)] else []
           | none => []) := by
  unfold handlePunctuation
  cases scope.punctuateURL <;> cases truthy text <;> simp

/-- The status callback changes the text only on CONNECTED. -/
theorem connectCallback_app (scope : GlobalScope) (action : SocketStatus) (id : String)
    (m : Machine) :
    (connectCallback scope action id m).m.app
      = if action = SocketStatus.CONNECTED
        then { m.app with text := "Connected, Start Speaking.." } else m.app := by
  unfold connectCallback
  by_cases h1 : action = SocketStatus.CONNECTED
  · simp [h1, setText]
  · by_cases h2 : action = SocketStatus.TERMINATED
    · simp [h2, handlePunctuation_app]
    · simp [h1, h2]

/-- The requests the status callback adds: those of `handlePunctuation` on the
displayed text when the action is TERMINATED, none otherwise. -/
theorem connectCallback_requests (scope : GlobalScope) (action : SocketStatus)
    (id : String) (m : Machine) :
    punctuateRequests (connectCallback scope action id m).m.calls
      = punctuateRequests m.calls ++
          (if action = SocketStatus.TERMINATED then
            (match scope.punctuateURL with
             | some url => if truthy m.app.text then [(m.app.text, url)] else []
             | none => [])
           else []) := by
  unfold connectCallback
  by_cases h1 : action = SocketStatus.CONNECTED
  · simp [h1]
  · by_cases h2 : action = SocketStatus.TERMINATED
    · simp [h2, handlePunctuation_requests]
    · simp [h1, h2]

/-- What one event does to the requests of the trace: a TERMINATED status adds those
of `handlePunctuation` on the displayed text, every other event adds none. -/
theorem deliver_requests (scope : GlobalScope) (m : Machine) (ev : Event) :
    punctuateRequests (deliver scope m ev).calls
      = punctuateRequests m.calls ++
          (if isTerminated ev = true then
            (match scope.punctuateURL with
             | some url => if truthy m.app.text then [(m.app.text, url)] else []
             | none => [])
           else []) := by
  cases ev with
  | status action id =>
    simp only [deliver, connectCallback_requests]
    cases action <;> simp [isTerminated]
  | transcript text => simp [deliver, transcriptCallback, isTerminated]
  | streamingError e => simp [deliver, streamingErrorCallback, isTerminated]
  | punctuated status text => simp [deliver, punctuateSuccess, isTerminated]
  | punctuationFailed status error => simp [deliver, punctuateFailure, isTerminated]

/-- One event adds at most one request, and none unless it is a TERMINATED status. -/
theorem deliver_requests_length (scope : GlobalScope) (m : Machine) (ev : Event) :
    (punctuateRequests (deliver scope m ev).calls).length
      ≤ (punctuateRequests m.calls).length + (if isTerminated ev = true then 1 else 0) := by
  rw [deliver_requests]
  cases scope.punctuateURL <;> cases truthy m.app.text <;> cases isTerminated ev <;> simp

/-- The component after an event depends on the component before it only. -/
theorem deliver_app_congr (scope : GlobalScope) (m1 m2 : Machine) (ev : Event)
    (h : m1.app = m2.app) : (deliver scope m1 ev).app = (deliver scope m2 ev).app := by
  cases ev with
  | status action id => simp [deliver, connectCallback_app, h]
  | transcript text => simp [deliver, transcriptCallback, setText, h]
  | streamingError e => simp [deliver, streamingErrorCallback, h]
  | punctuated status text => simp [deliver, punctuateSuccess, setText, h]
  | punctuationFailed status error => simp [deliver, punctuateFailure, h]

/-- Two machines with the same component and the same requests stay so under any
sequence of events. -/
theorem run_congr (scope : GlobalScope) (evs : List Event) (m1 m2 : Machine)
    (h : m1.app = m2.app)
    (hr : punctuateRequests m1.calls = punctuateRequests m2.calls) :
    (run scope m1 evs).app = (run scope m2 evs).app ∧
      punctuateRequests (run scope m1 evs).calls
        = punctuateRequests (run scope m2 evs).calls := by
  induction evs generalizing m1 m2 with
  | nil => exact ⟨h, hr⟩
  | cons ev rest ih =>
    have happ := deliver_app_congr scope m1 m2 ev h
    have hreq : punctuateRequests (deliver scope m1 ev).calls
        = punctuateRequests (deliver scope m2 ev).calls := by
      rw [deliver_requests, deliver_requests, h, hr]
    exact ih _ _ happ hreq

/-- Over a sequence of events the trace gains at most one request per TERMINATED
status. -/
theorem run_requests_length (scope : GlobalScope) (evs : List Event) (m : Machine) :
    (punctuateRequests (run scope m evs).calls).length
      ≤ (punctuateRequests m.calls).length + evs.countP isTerminated := by
  induction evs generalizing m with
  | nil => simp [run]
  | cons ev rest ih =>
    have h1 := ih (deliver scope m ev)
    have h2 := deliver_requests_length scope m ev
    have h3 : run scope m (ev :: rest) = run scope (deliver scope m ev) rest := rfl
    rw [h3]
    cases hev : isTerminated ev <;> simp [List.countP_cons, hev] at h2 ⊢ <;> omega

/-- With the endpoint identifier bound, a TERMINATED status on a non-empty text issues
exactly one request, for that text, and completes normally. -/
theorem terminated_requests_of_bound (scope : GlobalScope) (url id : String) (m : Machine)
    (hs : scope.punctuateURL = some url) (ht : m.app.text ≠ "") :
    punctuateRequests (connectCallback scope SocketStatus.TERMINATED id m).m.calls
        = punctuateRequests m.calls ++ [(m.app.text, url)] ∧
      (connectCallback scope SocketStatus.TERMINATED id m).completion
        = Completion.normal := by
  have htr : truthy m.app.text = true := (truthy_iff _).2 ht
  constructor
  · rw [connectCallback_requests]; simp [hs, htr]
  · simp [connectCallback, handlePunctuation, hs, htr]

/-! ## The claims -/

/-- C1: on a TERMINATED status with the displayed text "hello world" the callback
hands that text to `handlePunctuation`, which stops at the unbound identifier
`punctuateURL` of line 65: it throws a ReferenceError and no `punctuateText` request is
issued, where the claim says exactly one is.  Had the success callback run with
("ok", "Hello, world."), the text would have become "Hello, world.". -/
theorem terminated_hello_world_issues_no_request :
    (connectCallback { punctuateURL := none } SocketStatus.TERMINATED "c1"
        (mount { constructor with text := "hello world" })).completion
        = Completion.referenceError "punctuateURL" ∧
      punctuateRequests
        (connectCallback { punctuateURL := none } SocketStatus.TERMINATED "c1"
          (mount { constructor with text := "hello world" })).m.calls = [] ∧
      (connectCallback { punctuateURL := none } SocketStatus.TERMINATED "c1"
        (mount { constructor with text := "hello world" })).m.app.text = "hello world" ∧
      (punctuateSuccess "ok" "Hello, world."
        (mount { constructor with text := "hello world" })).app.text = "Hello, world." := by
  decide

/-- C2: a TERMINATED status that arrives while the displayed text is empty issues no
`punctuateText` request, leaves the component unchanged and completes normally; and so
does `handlePunctuation("")` itself. -/
theorem empty_transcript_skips_punctuation (scope : GlobalScope) (id : String)
    (m : Machine) (h : m.app.text = "") :
    punctuateRequests (connectCallback scope SocketStatus.TERMINATED id m).m.calls
        = punctuateRequests m.calls ∧
      (connectCallback scope SocketStatus.TERMINATED id m).m.app = m.app ∧
      (connectCallback scope SocketStatus.TERMINATED id m).completion
        = Completion.normal ∧
      (handlePunctuation scope "" m).m.calls
        = m.calls ++ [Call.consoleLog [LogArg.str "Punctuating: "]] ∧
      (handlePunctuation scope "" m).m.app = m.app ∧
      (handlePunctuation scope "" m).completion = Completion.normal := by
  have ht : truthy "" = false := by decide
  refine ⟨?_, ?_, ?_, ?_, ?_, ?_⟩
  · rw [connectCallback_requests, h, ht]
    cases scope.punctuateURL <;> simp
  · simp [connectCallback_app]
  · simp [connectCallback, handlePunctuation, h, ht]
  · simp [handlePunctuation, ht, consoleLog, call]
  · exact handlePunctuation_app scope "" m
  · simp [handlePunctuation, ht]

/-- Witness of C2: the component with an empty text, endpoint identifier bound. -/
theorem empty_transcript_skips_punctuation_witness :
    (mount { constructor with text := "" }).app.text = "" ∧
      punctuateRequests
        (connectCallback { punctuateURL := some "https://punctuate.example" }
          SocketStatus.TERMINATED "c1" (mount { constructor with text := "" })).m.calls
        = [] :=
  ⟨rfl, (empty_transcript_skips_punctuation
    { punctuateURL := some "https://punctuate.example" } "c1"
    (mount { constructor with text := "" }) rfl).1⟩

/-- C3: after a non-empty sequence of transcript fragments has been delivered to the
transcript callback, the displayed text is the last fragment, whatever the component
held before and whatever the earlier fragments were. -/
theorem fragments_overwrite_transcript (scope : GlobalScope) (m : Machine)
    (frags : List String) (h : frags ≠ []) :
    (run scope m (frags.map Event.transcript)).app.text = frags.getLast h := by
  induction frags generalizing m with
  | nil => exact absurd rfl h
  | cons f rest ih =>
    cases rest with
    | nil => simp [run, deliver, transcriptCallback]
    | cons g rest2 =>
      have h2 : g :: rest2 ≠ [] := List.cons_ne_nil g rest2
      have := ih (deliver scope m (Event.transcript f)) h2
      simpa [run, List.getLast_cons h2] using this

/-- Witness of C3: "he", "hell", "hello" after CONNECTED leaves "hello". -/
theorem fragments_overwrite_transcript_witness :
    ["he", "hell", "hello"] ≠ [] ∧
      (run { punctuateURL := none }
        (session { punctuateURL := none } (mount constructor)
          [Event.status SocketStatus.CONNECTED "c1"])
        (["he", "hell", "hello"].map Event.transcript)).app.text = "hello" :=
  ⟨by decide, fragments_overwrite_transcript { punctuateURL := none }
    (session { punctuateURL := none } (mount constructor)
      [Event.status SocketStatus.CONNECTED "c1"])
    ["he", "hell", "hello"] (by decide)⟩

/-- C4: the failure callback of a punctuation request only logs "Failed to punctuate"
with the status and the error: the component is unchanged, so after a TERMINATED status
on a text t followed by the failure callback the displayed text is still t. -/
theorem punctuation_failure_keeps_text (scope : GlobalScope) (id status error : String)
    (m : Machine) :
    (punctuateFailure status error m).app = m.app ∧
      (punctuateFailure status error m).calls = m.calls ++
        [Call.consoleLog
          [LogArg.str "Failed to punctuate", LogArg.str status, LogArg.str error]] ∧
      (punctuateFailure status error
        (connectCallback scope SocketStatus.TERMINATED id m).m).app.text = m.app.text := by
  refine ⟨rfl, rfl, ?_⟩
  simp [punctuateFailure, connectCallback_app]

/-- C5, as stated, fails: with the endpoint identifier bound, a session that has
streamed "hello world" and then receives ERROR issues no request at the ERROR, but the
TERMINATED status that follows still issues one. -/
theorem error_then_terminated_still_punctuates :
    punctuateRequests
        (session { punctuateURL := some "https://punctuate.example" } (mount constructor)
          [Event.status SocketStatus.CONNECTED "c1", Event.transcript "hello world",
           Event.status SocketStatus.ERROR "c1"]).calls = [] ∧
      punctuateRequests
        (session { punctuateURL := some "https://punctuate.example" } (mount constructor)
          [Event.status SocketStatus.CONNECTED "c1", Event.transcript "hello world",
           Event.status SocketStatus.ERROR "c1",
           Event.status SocketStatus.TERMINATED "c1"]).calls
        = [("hello world", "https://punctuate.example")] := by
  decide

/-- C5, amended: an ERROR status is only logged.  Handling it completes normally,
issues no `punctuateText` request and leaves the component, and so the displayed text,
unchanged; no Failed state is recorded, so every later sequence of events leaves the
same component and the same requests as it would have without the ERROR. -/
theorem error_event_only_logs (scope : GlobalScope) (id : String) (m : Machine)
    (evs : List Event) :
    (connectCallback scope SocketStatus.ERROR id m).completion = Completion.normal ∧
      (connectCallback scope SocketStatus.ERROR id m).m.app = m.app ∧
      (connectCallback scope SocketStatus.ERROR id m).m.calls = m.calls ++
        [Call.consoleLog [LogArg.str "Connected", LogArg.str id, LogArg.str "action:",
            LogArg.action SocketStatus.ERROR],
         Call.consoleLog [LogArg.str "Un expected action",
            LogArg.action SocketStatus.ERROR, LogArg.str id]] ∧
      punctuateRequests (connectCallback scope SocketStatus.ERROR id m).m.calls
        = punctuateRequests m.calls ∧
      (run scope (connectCallback scope SocketStatus.ERROR id m).m evs).app
        = (run scope m evs).app ∧
      punctuateRequests (run scope (connectCallback scope SocketStatus.ERROR id m).m evs).calls
        = punctuateRequests (run scope m evs).calls := by
  have happ : (connectCallback scope SocketStatus.ERROR id m).m.app = m.app := by
    simp [connectCallback_app]
  have hreq : punctuateRequests (connectCallback scope SocketStatus.ERROR id m).m.calls
      = punctuateRequests m.calls := by
    simp [connectCallback_requests]
  have hrun := run_congr scope evs _ _ happ hreq
  refine ⟨?_, happ, ?_, hreq, hrun.1, hrun.2⟩
  · simp [connectCallback]
  · simp [connectCallback, consoleLog, call]

/-- C6, as stated, fails: a second `handleStart()` during a session that is streaming
"hello" returns normally, replaces the displayed text and sends a second connect
request. -/
theorem second_start_reconnects :
    (session { punctuateURL := none } (mount constructor)
        [Event.status SocketStatus.CONNECTED "c1", Event.transcript "hello"]).app.text
        = "hello" ∧
      (handleStart
        (session { punctuateURL := none } (mount constructor)
          [Event.status SocketStatus.CONNECTED "c1", Event.transcript "hello"])).app.text
        = "Connecting to server.." ∧
      connectRequests
        (session { punctuateURL := none } (mount constructor)
          [Event.status SocketStatus.CONNECTED "c1", Event.transcript "hello"]).calls
        = ["<Add URL HERE>"] ∧
      connectRequests
        (handleStart
          (session { punctuateURL := none } (mount constructor)
            [Event.status SocketStatus.CONNECTED "c1", Event.transcript "hello"])).calls
        = ["<Add URL HERE>", "<Add URL HERE>"] := by
  decide

/-- C6, amended: `handleStart()` has no guard.  Whatever the component holds and
whatever has happened before, it sets the displayed text to "Connecting to server.."
and sends one more connect request for `streamingURL` with language "hi", sample rate
16000 and no post-processors; the two URL fields are unchanged. -/
theorem handleStart_always_connects (m : Machine) :
    (handleStart m).app.text = "Connecting to server.." ∧
      (handleStart m).app.streamingURL = m.app.streamingURL ∧
      (handleStart m).app.punctuateURL = m.app.punctuateURL ∧
      (handleStart m).calls
        = m.calls ++ [Call.connect m.app.streamingURL "hi" 16000 []] :=
  ⟨rfl, rfl, rfl, rfl⟩

/-- C7, as stated, fails: `handleStop()` on a freshly constructed component, with no
session started, forwards a stop request to the streaming client, whether that call
returns or throws a TypeError; the only failure it can end in is the one the client
raised. -/
theorem stop_without_session_forwards :
    stopRequests (mount constructor).calls = 0 ∧
      connectRequests (mount constructor).calls = [] ∧
      stopRequests (handleStop Completion.normal (mount constructor)).m.calls = 1 ∧
      (handleStop Completion.normal (mount constructor)).completion
        = Completion.normal ∧
      (handleStop (Completion.thrown "TypeError") (mount constructor)).m.calls
        = [Call.consoleLog [LogArg.str "Stopping: Click Start to start speaking.."],
           Call.stopStreaming] ∧
      (handleStop (Completion.thrown "TypeError") (mount constructor)).completion
        = Completion.thrown "TypeError" := by
  decide

/-- C7, amended: `handleStop()` makes no check of its own.  Whether or not a session is
active it logs "Stopping: " followed by the displayed text and forwards one stop
request to the streaming client, leaving the component unchanged; it ends exactly as
the client's `stopStreaming()` ends, so it adds no failure of its own. -/
theorem handleStop_always_forwards (stopStreaming : Completion) (m : Machine) :
    (handleStop stopStreaming m).m.app = m.app ∧
      (handleStop stopStreaming m).m.calls = m.calls ++
        [Call.consoleLog [LogArg.str ("Stopping: " ++ m.app.text)], Call.stopStreaming] ∧
      stopRequests (handleStop stopStreaming m).m.calls = stopRequests m.calls + 1 ∧
      (handleStop stopStreaming m).completion = stopStreaming := by
  refine ⟨rfl, ?_, ?_, rfl⟩
  · simp [handleStop, consoleLog, call]
  · simp [handleStop, consoleLog, call, stopRequests]

/-- C8, as stated, fails: with the endpoint identifier bound, a session whose
transport reports TERMINATED twice issues two `punctuateText` requests. -/
theorem two_terminated_two_requests :
    punctuateRequests
        (session { punctuateURL := some "https://punctuate.example" } (mount constructor)
          [Event.status SocketStatus.CONNECTED "c1", Event.transcript "hello world",
           Event.status SocketStatus.TERMINATED "c1",
           Event.status SocketStatus.TERMINATED "c1"]).calls
        = [("hello world", "https://punctuate.example"),
           ("hello world", "https://punctuate.example")] := by
  decide

/-- C8, amended: punctuation is attempted only while handling a TERMINATED status, at
most once for each.  Over any sequence of events delivered after `handleStart()` the
number of `punctuateText` requests issued is at most the number of TERMINATED statuses
in the sequence, and an event that is not a TERMINATED status issues none. -/
theorem punctuation_only_on_terminated (scope : GlobalScope) (m : Machine)
    (evs : List Event) :
    (punctuateRequests (session scope m evs).calls).length
        ≤ (punctuateRequests m.calls).length + evs.countP isTerminated ∧
      ∀ (m1 : Machine) (ev : Event), isTerminated ev = false →
        punctuateRequests (deliver scope m1 ev).calls = punctuateRequests m1.calls := by
  constructor
  · have h := run_requests_length scope evs (handleStart m)
    have hs : punctuateRequests (handleStart m).calls = punctuateRequests m.calls := by
      simp [handleStart, call, punctuateRequests]
    unfold session
    rw [hs] at h
    exact h
  · intro m1 ev hev
    rw [deliver_requests, hev]
    simp

/-- Witness of C8: a fresh session that connects, streams "hello world", sees a
streaming error and terminates once. -/
theorem punctuation_only_on_terminated_witness :
    isTerminated (Event.streamingError "mic") = false ∧
      punctuateRequests
        (deliver { punctuateURL := some "https://punctuate.example" }
          (mount { constructor with text := "hello world" })
          (Event.streamingError "mic")).calls
        = punctuateRequests (mount { constructor with text := "hello world" }).calls ∧
      (punctuateRequests
        (session { punctuateURL := some "https://punctuate.example" } (mount constructor)
          [Event.status SocketStatus.CONNECTED "c1", Event.transcript "hello world",
           Event.streamingError "mic", Event.status SocketStatus.TERMINATED "c1"]).calls).length
        ≤ (punctuateRequests (mount constructor).calls).length +
          [Event.status SocketStatus.CONNECTED "c1", Event.transcript "hello world",
           Event.streamingError "mic",
           Event.status SocketStatus.TERMINATED "c1"].countP isTerminated :=
  ⟨rfl,
   (punctuation_only_on_terminated { punctuateURL := some "https://punctuate.example" }
      (mount constructor) []).2
      (mount { constructor with text := "hello world" }) (Event.streamingError "mic") rfl,
   (punctuation_only_on_terminated { punctuateURL := some "https://punctuate.example" }
      (mount constructor)
      [Event.status SocketStatus.CONNECTED "c1", Event.transcript "hello world",
       Event.streamingError "mic", Event.status SocketStatus.TERMINATED "c1"]).1⟩

/-- C9: `handlePunctuation` takes the endpoint from the free identifier `punctuateURL`,
never from the component field of that name.  On the freshly constructed component,
whose field is "<Add Punctuate URL HERE>", `handlePunctuation("hello world")` throws a
ReferenceError and issues no request when the identifier is unbound, and sends the
request to the global value when a script has bound one; changing the field changes
nothing. -/
theorem punctuation_endpoint_is_not_the_field :
    (mount constructor).app.punctuateURL = "<Add Punctuate URL HERE>" ∧
      (handlePunctuation { punctuateURL := none } "hello world"
        (mount constructor)).completion = Completion.referenceError "punctuateURL" ∧
      punctuateRequests
        (handlePunctuation { punctuateURL := none } "hello world"
          (mount constructor)).m.calls = [] ∧
      punctuateRequests
        (handlePunctuation { punctuateURL := some "https://elsewhere.example" }
          "hello world" (mount constructor)).m.calls
        = [("hello world", "https://elsewhere.example")] ∧
      ∀ (scope : GlobalScope) (text field : String) (m : Machine),
        punctuateRequests
          (handlePunctuation scope text
            { m with app := { m.app with punctuateURL := field } }).m.calls
          = punctuateRequests (handlePunctuation scope text m).m.calls := by
  refine ⟨by decide, by decide, by decide, by decide, ?_⟩
  intro scope text field m
  rw [handlePunctuation_requests, handlePunctuation_requests]

/-- C10: in the session start, CONNECTED, TERMINATED with no fragment in between, the
text handed to `handlePunctuation` is the status message "Connected, Start Speaking..",
as its log line shows, and the text passes the `if (text)` test; the unbound identifier
`punctuateURL` then throws, so no request is issued for it, where the claim says one
is. -/
theorem status_message_reaches_punctuation :
    (session { punctuateURL := none } (mount constructor)
        [Event.status SocketStatus.CONNECTED "c1"]).app.text
        = "Connected, Start Speaking.." ∧
      truthy "Connected, Start Speaking.." = true ∧
      (session { punctuateURL := none } (mount constructor)
        [Event.status SocketStatus.CONNECTED "c1",
         Event.status SocketStatus.TERMINATED "c1"]).calls.getLast?
        = some (Call.consoleLog
            [LogArg.str "Punctuating: Connected, Start Speaking.."]) ∧
      (connectCallback { punctuateURL := none } SocketStatus.TERMINATED "c1"
        (session { punctuateURL := none } (mount constructor)
          [Event.status SocketStatus.CONNECTED "c1"])).completion
        = Completion.referenceError "punctuateURL" ∧
      punctuateRequests
        (session { punctuateURL := none } (mount constructor)
          [Event.status SocketStatus.CONNECTED "c1",
           Event.status SocketStatus.TERMINATED "c1"]).calls = [] := by
  decide

end ReactExample
